import Mathlib

/-!
Shallow embedding of the workshop-management backend's core logic
(identity resolution, workshop registration, reminder scheduling and the
points/profile ledger), with theorems checking the specification's claims
against it.

The backing relational store is modelled as explicit Lean lists of rows;
every service function takes the store state it reads and returns the
store state it leaves behind.  `fastapi.HTTPException` is modelled by the
`HTTPExc` structure (status code plus detail string) on the error side of
`Except`.  Timestamps are microseconds (`Nat`/`Int`), matching Python
`datetime` microsecond resolution.
-/

set_option maxHeartbeats 1000000

/-- HTTP error raised by a service: status code and detail message
(models `fastapi.HTTPException`). -/
structure HTTPExc where
  statusCode : Nat
  detail : String
deriving DecidableEq, Repr

/-- User role enum from `app/schemas/user.py` (`guest`, `user`, `admin`). -/
inductive Role where
  | guest
  | user
  | admin
deriving DecidableEq, Repr

/-- A row of the `users` table, with the columns the core logic touches.
`name` and `profile_pic_url` are nullable in the store, hence `Option`;
`profile_complete` defaults to `false` on insert. -/
structure UserRow where
  id : Nat
  email : String
  name : Option String
  auth_id : Option Nat
  profile_pic_url : Option String
  role : Role
  points : Int
  profile_complete : Bool
deriving DecidableEq, Repr

/-- A row of the `user_workshop` table: (user_id, workshop_id) plus the two
reminder flags (both inserted as `false` by registration). -/
structure RegRow where
  user_id : Nat
  workshop_id : Nat
  reminder_1day_sent : Bool
  reminder_15min_sent : Bool
deriving DecidableEq, Repr

/-- `UserWorkshopService.register_user_to_workshop`
(`app/services/user_workshop.py`): select the rows matching
(user_id, workshop_id); if any exist raise 409, otherwise insert a row with
both reminder flags `false` and return the new store plus the inserted row. -/
def register_user_to_workshop (db : List RegRow) (uid wid : Nat) :
    Except HTTPExc (List RegRow × RegRow) :=
  let existing := db.filter (fun r => r.user_id == uid && r.workshop_id == wid)
  if existing.isEmpty then
    let row : RegRow := ⟨uid, wid, false, false⟩
    .ok (db ++ [row], row)
  else
    .error ⟨409, "User already registered for this workshop"⟩

/-- Stateful view of `register_user_to_workshop`: a failed call leaves the
store exactly as it was (the service raises before any insert). -/
def register_user_to_workshop_st (db : List RegRow) (uid wid : Nat) :
    Except HTTPExc RegRow × List RegRow :=
  match register_user_to_workshop db uid wid with
  | .ok (db', row) => (.ok row, db')
  | .error e => (.error e, db)

/-- Number of `user_workshop` rows stored for a given (user, workshop) pair. -/
def countPair (db : List RegRow) (uid wid : Nat) : Nat :=
  (db.filter (fun r => r.user_id == uid && r.workshop_id == wid)).length

/-- C2: registering the same (user, workshop) pair twice succeeds first,
fails second with a 409 conflict, leaves exactly one row for the pair, and
the failed attempt inserts nothing. -/
theorem c2_duplicate_registration_rejected (db : List RegRow) (uid wid : Nat)
    (h : countPair db uid wid = 0) :
    register_user_to_workshop db uid wid =
      .ok (db ++ [⟨uid, wid, false, false⟩], ⟨uid, wid, false, false⟩) ∧
    register_user_to_workshop (db ++ [⟨uid, wid, false, false⟩]) uid wid =
      .error ⟨409, "User already registered for this workshop"⟩ ∧
    countPair (db ++ [⟨uid, wid, false, false⟩]) uid wid = 1 ∧
    (register_user_to_workshop_st (db ++ [⟨uid, wid, false, false⟩]) uid wid).2 =
      db ++ [⟨uid, wid, false, false⟩] := by
  have hnil : db.filter (fun r => r.user_id == uid && r.workshop_id == wid) = [] := by
    unfold countPair at h
    exact List.length_eq_zero.mp h
  have hfilter : (db ++ [(⟨uid, wid, false, false⟩ : RegRow)]).filter
      (fun r => r.user_id == uid && r.workshop_id == wid) = [⟨uid, wid, false, false⟩] := by
    rw [List.filter_append, hnil]
    simp
  refine ⟨?_, ?_, ?_, ?_⟩
  · unfold register_user_to_workshop
    simp [hnil]
  · unfold register_user_to_workshop
    simp [hfilter]
  · unfold countPair
    simp [hfilter]
  · unfold register_user_to_workshop_st register_user_to_workshop
    simp [hfilter]

/-- Witness for C2 at the empty store. -/
theorem c2_witness :
    register_user_to_workshop [] 1 2 =
      .ok ([⟨1, 2, false, false⟩], ⟨1, 2, false, false⟩) ∧
    register_user_to_workshop [⟨1, 2, false, false⟩] 1 2 =
      .error ⟨409, "User already registered for this workshop"⟩ ∧
    countPair [⟨1, 2, false, false⟩] 1 2 = 1 ∧
    (register_user_to_workshop_st [⟨1, 2, false, false⟩] 1 2).2 =
      [⟨1, 2, false, false⟩] := by
  have h := c2_duplicate_registration_rejected [] 1 2 (by decide)
  simpa using h

/-- `AuthService.verify_user_exists` (`app/services/auth.py`): does any
`users` row have this email. -/
def verify_user_exists (db : List UserRow) (email : String) : Bool :=
  db.any (fun u => u.email == email)

/-- `AuthService.get_user_by_email`: first `users` row with this email
(`response.data[0]`), `none` models the 404 branch. -/
def get_user_by_email (db : List UserRow) (email : String) : Option UserRow :=
  db.find? (fun u => u.email == email)

/-- `AuthService.get_user_role`: role of the first `users` row with this
email, `none` models the 404 branch. -/
def get_user_role (db : List UserRow) (email : String) : Option Role :=
  (db.find? (fun u => u.email == email)).map (fun u => u.role)

/-- `AuthService.create_user_in_db`: insert a `users` row with the supplied
email, name, auth_id, profile_pic_url, role and points (defaulted to 0 by
the caller when absent); `profile_complete` takes the store default `false`.
`newId` stands for the store-generated row id. -/
def create_user_in_db (db : List UserRow) (newId : Nat) (email name : String)
    (auth_id : Option Nat) (profile_pic_url : Option String) (role : Role)
    (points : Int) : List UserRow × UserRow :=
  let u : UserRow := ⟨newId, email, some name, auth_id, profile_pic_url, role, points, false⟩
  (db ++ [u], u)

/-- `AuthService.upgrade_user_role_with_profile`: if no row has this email,
404 (`none`); otherwise update every row with this email, setting auth_id,
role, name and profile_pic_url, and return the first updated row. -/
def upgrade_user_role_with_profile (db : List UserRow) (email : String)
    (auth_id : Nat) (role : Role) (name : String) (profile_pic_url : Option String) :
    Option (List UserRow × UserRow) :=
  match db.find? (fun u => u.email == email) with
  | none => none
  | some u =>
    let upd : UserRow → UserRow := fun v =>
      if v.email == email then
        { v with auth_id := some auth_id, role := role, name := some name,
                 profile_pic_url := profile_pic_url }
      else v
    some (db.map upd, upd u)

/-- `AuthService.get_or_create_user` (`app/services/auth.py`): the identity
resolver.  If a row exists for the email: role `guest` is upgraded in place
(auth_id linked, role set to `user`, name and avatar overwritten from the
token metadata); any other role is returned as-is with no write.  If no row
exists, a fresh row is created with role `user`, points 0, the metadata
name/avatar and the auth_id linked. -/
def get_or_create_user (db : List UserRow) (newId : Nat) (email : String)
    (auth_id : Nat) (metaName : String) (metaAvatar : Option String) :
    Option (List UserRow × UserRow) :=
  if verify_user_exists db email then
    match get_user_role db email with
    | some .guest =>
      upgrade_user_role_with_profile db email auth_id .user metaName metaAvatar
    | _ => (get_user_by_email db email).map (fun u => (db, u))
  else
    some (create_user_in_db db newId email metaName (some auth_id) metaAvatar .user 0)

/-- C3: the identity resolver's three-way case split.  No row for the email:
create role `user`, points 0, supplied name/avatar, auth_id linked, and
return it.  First row is a `guest`: promote in place (role `user`, auth_id
linked, name/avatar overwritten) and return the updated row.  First row is a
`user` or `admin`: return it with the store untouched. -/
theorem c3_identity_resolver_cases (db : List UserRow) (newId : Nat)
    (email : String) (auth_id : Nat) (metaName : String) (metaAvatar : Option String) :
    (db.find? (fun u => u.email == email) = none →
      get_or_create_user db newId email auth_id metaName metaAvatar =
        some (db ++ [⟨newId, email, some metaName, some auth_id, metaAvatar, .user, 0, false⟩],
              ⟨newId, email, some metaName, some auth_id, metaAvatar, .user, 0, false⟩)) ∧
    (∀ u, db.find? (fun v => v.email == email) = some u → u.role = .guest →
      get_or_create_user db newId email auth_id metaName metaAvatar =
        some (db.map (fun v =>
                if v.email == email then
                  { v with auth_id := some auth_id, role := .user, name := some metaName,
                           profile_pic_url := metaAvatar }
                else v),
              { u with auth_id := some auth_id, role := .user, name := some metaName,
                       profile_pic_url := metaAvatar })) ∧
    (∀ u, db.find? (fun v => v.email == email) = some u →
      (u.role = .user ∨ u.role = .admin) →
      get_or_create_user db newId email auth_id metaName metaAvatar = some (db, u)) := by
  have hverify : verify_user_exists db email =
      (db.find? (fun u => u.email == email)).isSome := by
    induction db with
    | nil => rfl
    | cons a l ih =>
      cases h : (a.email == email) with
      | true => simp [verify_user_exists, List.any_cons, h, List.find?_cons, ih]
      | false =>
        simp only [verify_user_exists, List.any_cons, h, Bool.false_or,
          List.find?_cons]
        exact ih
  refine ⟨?_, ?_, ?_⟩
  · intro hnone
    have hex : verify_user_exists db email = false := by
      rw [hverify, hnone]
      rfl
    unfold get_or_create_user
    rw [hex]
    simp [create_user_in_db]
  · intro u hu hrole
    have hex : verify_user_exists db email = true := by
      rw [hverify, hu]
      rfl
    have hemail : (u.email == email) = true := by
      have h2 := List.find?_some hu
      simpa using h2
    unfold get_or_create_user
    rw [hex]
    simp only [get_user_role, hu, Option.map_some', if_true]
    rw [hrole]
    unfold upgrade_user_role_with_profile
    rw [hu]
    simp [hemail]
  · intro u hu hrole
    have hex : verify_user_exists db email = true := by
      rw [hverify, hu]
      rfl
    unfold get_or_create_user
    rw [hex]
    simp only [get_user_role, hu, Option.map_some', if_true]
    rcases hrole with h | h <;>
      rw [h] <;> simp [get_user_by_email, hu]

/-- Witness for C3: fresh email on an empty store creates a `user` row with
points 0 and the auth subject linked. -/
theorem c3_witness :
    get_or_create_user [] 7 "a@x.com" 42 "Alice" (some "pic") =
      some ([⟨7, "a@x.com", some "Alice", some 42, some "pic", .user, 0, false⟩],
            ⟨7, "a@x.com", some "Alice", some 42, some "pic", .user, 0, false⟩) := by
  have h := (c3_identity_resolver_cases [] 7 "a@x.com" 42 "Alice" (some "pic")).1 rfl
  simpa using h

/-- Helper: `find?` over a mapped list when the map preserves the predicate
(used for row updates keyed by id, which never change the id). -/
theorem find?_map_of_pred_comm {α : Type} (g : α → α) (p : α → Bool)
    (hg : ∀ v, p (g v) = p v) (l : List α) :
    (l.map g).find? p = (l.find? p).map g := by
  induction l with
  | nil => rfl
  | cons a t ih =>
    cases h : p a with
    | true =>
      have h2 : p (g a) = true := by rw [hg]; exact h
      simp [List.find?_cons, h, h2]
    | false =>
      have h2 : p (g a) = false := by rw [hg]; exact h
      simp [List.find?_cons, h, h2, ih]

/-- The required-field presence check inside `UserService.is_profile_complete`
(`app/services/user.py`): a field is missing when it is null, empty, or
whitespace-only (`not value or not value.strip()`; a Python string strips to
empty exactly when every character is whitespace). -/
def field_missing : Option String → Bool
  | none => true
  | some s => s.data.all (fun c => c.isWhitespace)

/-- `ProfileCompletionStatus` fields that the core logic computes. -/
structure ProfileStatus where
  is_complete : Bool
  newly_completed : Bool
  completion_percentage : Nat
  points_awarded : Int
deriving DecidableEq, Repr

/-- Both required profile fields (name, profile_pic_url) pass the source's
presence check. -/
def profile_fields_filled (u : UserRow) : Bool :=
  !field_missing u.name && !field_missing u.profile_pic_url

/-- The per-row body of `UserService.is_profile_complete`
(`app/services/user.py`), run on the found user row: count missing required
fields (name, profile_pic_url); the profile is complete when none are
missing; it is *newly* completed when it is complete and the stored
`profile_complete` flag was false; in that case the flag is set and 10 bonus
points are added to the user's stored balance in one update, and the status
reports 10 points awarded, otherwise 0. -/
def profile_row_result (db : List UserRow) (uid : Nat) (u : UserRow) :
    ProfileStatus × List UserRow :=
  let missingName := field_missing u.name
  let missingPic := field_missing u.profile_pic_url
  let missingCount := (if missingName then 1 else 0) + (if missingPic then 1 else 0)
  let completedFields := 2 - missingCount
  let pct := (completedFields * 100) / 2
  let isComplete := missingCount == 0
  let newlyCompleted := isComplete && !u.profile_complete
  let db' :=
    if newlyCompleted then
      db.map (fun v => if v.id == uid then
        { v with profile_complete := true, points := u.points + 10 } else v)
    else db
  (⟨isComplete, newlyCompleted, pct, if newlyCompleted then 10 else 0⟩, db')

/-- `UserService.is_profile_complete`: look the user up by id (404 if
absent), then evaluate the completion logic on the found row. -/
def is_profile_complete (db : List UserRow) (uid : Nat) :
    Except HTTPExc (ProfileStatus × List UserRow) :=
  match db.find? (fun u => u.id == uid) with
  | none => .error ⟨404, "User not found"⟩
  | some u => .ok (profile_row_result db uid u)

/-- Reduction of `is_profile_complete` once the lookup is known. -/
theorem is_profile_complete_found (db : List UserRow) (uid : Nat) (u : UserRow)
    (hu : db.find? (fun v => v.id == uid) = some u) :
    is_profile_complete db uid = .ok (profile_row_result db uid u) := by
  unfold is_profile_complete
  rw [hu]

/-- Evaluation of `profile_row_result` from the values of the two presence
checks and the stored flag. -/
theorem profile_row_result_eval (db : List UserRow) (uid : Nat) (u : UserRow)
    (m1 m2 pc : Bool) (h1 : field_missing u.name = m1)
    (h2 : field_missing u.profile_pic_url = m2) (h3 : u.profile_complete = pc) :
    profile_row_result db uid u =
      (⟨(!m1 && !m2), (!m1 && !m2) && !pc,
        ((2 - ((if m1 then 1 else 0) + (if m2 then 1 else 0))) * 100) / 2,
        if (!m1 && !m2) && !pc then 10 else 0⟩,
       if (!m1 && !m2) && !pc then
         db.map (fun v => if v.id == uid then
           { v with profile_complete := true, points := u.points + 10 } else v)
       else db) := by
  unfold profile_row_result
  rw [h1, h2, h3]
  cases m1 <;> cases m2 <;> cases pc <;> rfl

/-- C5: the completion transition fires iff both required fields pass the
presence check and the stored flag was false; it sets the flag, adds exactly
10 points, and a re-invocation afterwards reports the profile complete,
awards 0, and leaves the store unchanged.  When the guard fails, nothing is
written and 0 points are awarded. -/
theorem c5_profile_bonus_fires_once (db : List UserRow) (uid : Nat) (u : UserRow)
    (hu : db.find? (fun v => v.id == uid) = some u) :
    (profile_fields_filled u = true → u.profile_complete = false →
      is_profile_complete db uid =
        .ok (⟨true, true, 100, 10⟩,
          db.map (fun v => if v.id == uid then
            { v with profile_complete := true, points := u.points + 10 } else v)) ∧
      is_profile_complete
        (db.map (fun v => if v.id == uid then
          { v with profile_complete := true, points := u.points + 10 } else v)) uid =
        .ok (⟨true, false, 100, 0⟩,
          db.map (fun v => if v.id == uid then
            { v with profile_complete := true, points := u.points + 10 } else v))) ∧
    (profile_fields_filled u = false ∨ u.profile_complete = true →
      ∃ s, is_profile_complete db uid = .ok (s, db) ∧
        s.is_complete = profile_fields_filled u ∧
        s.newly_completed = false ∧ s.points_awarded = 0) := by
  have hid : u.id = uid := by
    have h2 := List.find?_some hu
    simpa using h2
  have hfind2 : (db.map (fun v => if v.id == uid then
      { v with profile_complete := true, points := u.points + 10 } else v)).find?
        (fun v => v.id == uid) =
      some { u with profile_complete := true, points := u.points + 10 } := by
    rw [find?_map_of_pred_comm]
    · rw [hu]
      simp [hid]
    · intro v
      cases h : (v.id == uid) <;> simp [h]
  constructor
  · intro hfill hflag
    have hm : field_missing u.name = false ∧ field_missing u.profile_pic_url = false := by
      unfold profile_fields_filled at hfill
      simp only [Bool.and_eq_true, Bool.not_eq_true'] at hfill
      exact hfill
    constructor
    · rw [is_profile_complete_found db uid u hu,
        profile_row_result_eval db uid u false false false hm.1 hm.2 hflag]
      rfl
    · have h1 : field_missing
          ({ u with profile_complete := true, points := u.points + 10 } : UserRow).name =
          false := hm.1
      have h2 : field_missing
          ({ u with profile_complete := true, points := u.points + 10 } : UserRow).profile_pic_url =
          false := hm.2
      have h3 : ({ u with profile_complete := true, points := u.points + 10 } : UserRow).profile_complete =
          true := rfl
      rw [is_profile_complete_found _ uid _ hfind2,
        profile_row_result_eval _ uid _ false false true h1 h2 h3]
      rfl
  · intro h2
    rw [is_profile_complete_found db uid u hu]
    cases hm1 : field_missing u.name <;> cases hm2 : field_missing u.profile_pic_url <;>
      cases hpc : u.profile_complete
    · exfalso
      rcases h2 with h2 | h2
      · rw [profile_fields_filled, hm1, hm2] at h2
        simp at h2
      · rw [hpc] at h2
        simp at h2
    · exact ⟨⟨true, false, 100, 0⟩,
        by rw [profile_row_result_eval db uid u false false true hm1 hm2 hpc]; rfl,
        by rw [profile_fields_filled, hm1, hm2]; rfl, rfl, rfl⟩
    · exact ⟨⟨false, false, 50, 0⟩,
        by rw [profile_row_result_eval db uid u false true false hm1 hm2 hpc]; rfl,
        by rw [profile_fields_filled, hm1, hm2]; rfl, rfl, rfl⟩
    · exact ⟨⟨false, false, 50, 0⟩,
        by rw [profile_row_result_eval db uid u false true true hm1 hm2 hpc]; rfl,
        by rw [profile_fields_filled, hm1, hm2]; rfl, rfl, rfl⟩
    · exact ⟨⟨false, false, 50, 0⟩,
        by rw [profile_row_result_eval db uid u true false false hm1 hm2 hpc]; rfl,
        by rw [profile_fields_filled, hm1, hm2]; rfl, rfl, rfl⟩
    · exact ⟨⟨false, false, 50, 0⟩,
        by rw [profile_row_result_eval db uid u true false true hm1 hm2 hpc]; rfl,
        by rw [profile_fields_filled, hm1, hm2]; rfl, rfl, rfl⟩
    · exact ⟨⟨false, false, 0, 0⟩,
        by rw [profile_row_result_eval db uid u true true false hm1 hm2 hpc]; rfl,
        by rw [profile_fields_filled, hm1, hm2]; rfl, rfl, rfl⟩
    · exact ⟨⟨false, false, 0, 0⟩,
        by rw [profile_row_result_eval db uid u true true true hm1 hm2 hpc]; rfl,
        by rw [profile_fields_filled, hm1, hm2]; rfl, rfl, rfl⟩

/-- Witness for C5: a user with name and avatar set and the flag false gets
the flag set plus 10 points, and the repeat call awards nothing. -/
theorem c5_witness :
    is_profile_complete [⟨1, "a@x.com", some "Alice", none, some "pic", .user, 5, false⟩] 1 =
      .ok (⟨true, true, 100, 10⟩,
        [⟨1, "a@x.com", some "Alice", none, some "pic", .user, 15, true⟩]) ∧
    is_profile_complete [⟨1, "a@x.com", some "Alice", none, some "pic", .user, 15, true⟩] 1 =
      .ok (⟨true, false, 100, 0⟩,
        [⟨1, "a@x.com", some "Alice", none, some "pic", .user, 15, true⟩]) := by
  have h := (c5_profile_bonus_fires_once
    [⟨1, "a@x.com", some "Alice", none, some "pic", .user, 5, false⟩] 1
    ⟨1, "a@x.com", some "Alice", none, some "pic", .user, 5, false⟩ rfl).1 (by decide) rfl
  simpa using h

/-- `UserService.increment_user_points` (`app/services/user.py`): reject
`amount <= 0` with a 400 before touching the store; otherwise read the
user's current balance (404 if the user is absent), add the amount, and
write the sum back as the new balance, returning it as `new_total`. -/
def increment_user_points (db : List UserRow) (uid : Nat) (amount : Int) :
    Except HTTPExc (List UserRow × Int) :=
  if amount ≤ 0 then
    .error ⟨400, "Points amount must be positive"⟩
  else
    match db.find? (fun u => u.id == uid) with
    | none => .error ⟨404, "User not found"⟩
    | some u =>
      let new_total := u.points + amount
      let db' := db.map (fun v => if v.id == uid then { v with points := new_total } else v)
      .ok (db', new_total)

/-- Stateful view of `increment_user_points`: a failed call leaves the store
exactly as it was. -/
def increment_user_points_st (db : List UserRow) (uid : Nat) (amount : Int) :
    Except HTTPExc Int × List UserRow :=
  match increment_user_points db uid amount with
  | .ok (db', t) => (.ok t, db')
  | .error e => (.error e, db)

/-- C7: every `amount <= 0` is rejected with a 400 validation error and the
store is untouched; for `amount > 0` and an existing user the call returns
`new_total = stored balance + amount` and writes exactly that value back as
the user's balance. -/
theorem c7_increment_points (db : List UserRow) (uid : Nat) (amount : Int) :
    (amount ≤ 0 →
      increment_user_points db uid amount =
        .error ⟨400, "Points amount must be positive"⟩ ∧
      (increment_user_points_st db uid amount).2 = db) ∧
    (0 < amount → ∀ u, db.find? (fun v => v.id == uid) = some u →
      increment_user_points db uid amount =
        .ok (db.map (fun v => if v.id == uid then { v with points := u.points + amount } else v),
          u.points + amount) ∧
      (db.map (fun v => if v.id == uid then { v with points := u.points + amount } else v)).find?
          (fun v => v.id == uid) =
        some { u with points := u.points + amount }) := by
  constructor
  · intro hle
    constructor
    · unfold increment_user_points
      rw [if_pos hle]
    · unfold increment_user_points_st increment_user_points
      rw [if_pos hle]
  · intro hpos u hu
    have hnle : ¬ amount ≤ 0 := not_le.mpr hpos
    have hid : u.id = uid := by
      have h2 := List.find?_some hu
      simpa using h2
    constructor
    · unfold increment_user_points
      rw [if_neg hnle, hu]
    · rw [find?_map_of_pred_comm]
      · rw [hu]
        simp [hid]
      · intro v
        cases h : (v.id == uid) <;> simp [h]

/-- Witness for C7: rejection of 0 and a successful +5 increment. -/
theorem c7_witness :
    (increment_user_points [⟨1, "a@x.com", none, none, none, .user, 3, false⟩] 1 0 =
      .error ⟨400, "Points amount must be positive"⟩ ∧
     (increment_user_points_st [⟨1, "a@x.com", none, none, none, .user, 3, false⟩] 1 0).2 =
      [⟨1, "a@x.com", none, none, none, .user, 3, false⟩]) ∧
    (increment_user_points [⟨1, "a@x.com", none, none, none, .user, 3, false⟩] 1 5 =
      .ok ([⟨1, "a@x.com", none, none, none, .user, 8, false⟩], 8) ∧
     ([⟨1, "a@x.com", none, none, none, .user, 8, false⟩] : List UserRow).find?
        (fun v => v.id == 1) =
      some ⟨1, "a@x.com", none, none, none, .user, 8, false⟩) := by
  constructor
  · exact (c7_increment_points [⟨1, "a@x.com", none, none, none, .user, 3, false⟩] 1 0).1
      (by decide)
  · have h := (c7_increment_points [⟨1, "a@x.com", none, none, none, .user, 3, false⟩] 1 5).2
      (by decide) ⟨1, "a@x.com", none, none, none, .user, 3, false⟩ rfl
    simpa using h

/-- Microseconds in one day (`timedelta(days=1)` at `datetime` microsecond
resolution). -/
def usecPerDay : Nat := 86400000000

/-- A `user_workshop` row joined with its workshop, as the notification
queries read it: the pair, the relevant reminder flags, and the joined
workshop's `start_time` (`none` when the joined workshop or its start time
is missing, in which case the item is skipped). -/
structure JoinedReg where
  user_id : Nat
  workshop_id : Nat
  reminder_1day_sent : Bool
  reminder_15min_sent : Bool
  workshop_start : Option Nat
deriving DecidableEq, Repr

/-- `NotificationService.get_workshops_for_1day_reminder`
(`app/services/notification.py`): `tomorrow = now + 1 day`;
`start_time = tomorrow.replace(hour=0, minute=0, second=0, microsecond=0)`
(midnight beginning tomorrow's calendar day);
`end_time = tomorrow.replace(hour=23, minute=59, second=59,
microsecond=999999)` (last microsecond of that day); select the rows whose
`reminder_1day_sent` is false and whose joined workshop start lies in
`[start_time, end_time]`. -/
def get_workshops_for_1day_reminder (now : Nat) (rows : List JoinedReg) :
    List JoinedReg :=
  let tomorrow := now + usecPerDay
  let start_time := (tomorrow / usecPerDay) * usecPerDay
  let end_time := start_time + (usecPerDay - 1)
  (rows.filter (fun r => r.reminder_1day_sent == false)).filter (fun r =>
    match r.workshop_start with
    | some ws => decide (start_time ≤ ws) && decide (ws ≤ end_time)
    | none => false)

/-- `NotificationService.get_workshops_for_15min_reminder`:
`start_time = now + 10 minutes`, `end_time = now + 20 minutes` (the code
comments call it the "10-20 minute window"); select the rows whose
`reminder_15min_sent` is false and whose joined workshop start lies in
`[start_time, end_time]`. -/
def get_workshops_for_15min_reminder (now : Nat) (rows : List JoinedReg) :
    List JoinedReg :=
  let start_time := now + 10 * 60 * 1000000
  let end_time := now + 20 * 60 * 1000000
  (rows.filter (fun r => r.reminder_15min_sent == false)).filter (fun r =>
    match r.workshop_start with
    | some ws => decide (start_time ≤ ws) && decide (ws ≤ end_time)
    | none => false)

/-- C1 counterexample: at `now = 0` (midnight), a flag-false registration
whose workshop starts 23 hours from now (`0 < delta ≤ 24h`) is NOT selected
by the 1-day job, and one whose workshop starts 5 minutes from now
(`0 < delta ≤ 15m`) is NOT selected by the 15-minute job — refuting the
claimed delta-window characterizations. -/
theorem c1_counterexample :
    (0 < 82800000000 - 0 ∧ 82800000000 - 0 ≤ 24 * 3600 * 1000000 ∧
      get_workshops_for_1day_reminder 0 [⟨1, 1, false, false, some 82800000000⟩] = []) ∧
    (0 < 300000000 - 0 ∧ 300000000 - 0 ≤ 15 * 60 * 1000000 ∧
      get_workshops_for_15min_reminder 0 [⟨1, 1, false, false, some 300000000⟩] = []) := by
  refine ⟨⟨by decide, by decide, ?_⟩, ⟨by decide, by decide, ?_⟩⟩ <;> rfl

/-- C1 (amended): for a registration whose relevant flag is false and whose
joined workshop has a start time, the 1-day job selects it iff the start
falls on the calendar day after `now`'s day (between tomorrow 00:00:00.000000
and tomorrow 23:59:59.999999), and the 15-minute job selects it iff
`now + 10min ≤ start ≤ now + 20min`; a start time in the past (`start ≤ now`)
is never selected by either job. -/
theorem c1_reminder_windows (now : Nat) (rows : List JoinedReg) (r : JoinedReg) :
    (r ∈ get_workshops_for_1day_reminder now rows ↔
      r ∈ rows ∧ r.reminder_1day_sent = false ∧
      ∃ ws, r.workshop_start = some ws ∧ ws / usecPerDay = now / usecPerDay + 1) ∧
    (r ∈ get_workshops_for_15min_reminder now rows ↔
      r ∈ rows ∧ r.reminder_15min_sent = false ∧
      ∃ ws, r.workshop_start = some ws ∧
        now + 10 * 60 * 1000000 ≤ ws ∧ ws ≤ now + 20 * 60 * 1000000) ∧
    (∀ ws, r.workshop_start = some ws → ws ≤ now →
      r ∉ get_workshops_for_1day_reminder now rows ∧
      r ∉ get_workshops_for_15min_reminder now rows) := by
  have hday : ∀ ws : Nat,
      ((now + usecPerDay) / usecPerDay) * usecPerDay ≤ ws ∧
        ws ≤ ((now + usecPerDay) / usecPerDay) * usecPerDay + (usecPerDay - 1) ↔
      ws / usecPerDay = now / usecPerDay + 1 := by
    intro ws
    unfold usecPerDay
    omega
  have mem_sel : ∀ (flagSel : JoinedReg → Bool) (lo hi : Nat),
      (r ∈ (rows.filter (fun x => flagSel x == false)).filter (fun x =>
          match x.workshop_start with
          | some ws => decide (lo ≤ ws) && decide (ws ≤ hi)
          | none => false) ↔
        r ∈ rows ∧ flagSel r = false ∧
        ∃ ws, r.workshop_start = some ws ∧ lo ≤ ws ∧ ws ≤ hi) := by
    intro flagSel lo hi
    rw [List.mem_filter, List.mem_filter]
    constructor
    · rintro ⟨⟨hmem, hflag⟩, hwin⟩
      refine ⟨hmem, by simpa using hflag, ?_⟩
      cases hws : r.workshop_start with
      | none => rw [hws] at hwin; simp at hwin
      | some ws =>
        rw [hws] at hwin
        simp only [Bool.and_eq_true, decide_eq_true_eq] at hwin
        exact ⟨ws, rfl, hwin.1, hwin.2⟩
    · rintro ⟨hmem, hflag, ws, hws, h1, h2⟩
      refine ⟨⟨hmem, by simp [hflag]⟩, ?_⟩
      rw [hws]
      simp [h1, h2]
  refine ⟨?_, ?_, ?_⟩
  · unfold get_workshops_for_1day_reminder
    rw [mem_sel (fun x => x.reminder_1day_sent)]
    constructor
    · rintro ⟨hmem, hflag, ws, hws, h1, h2⟩
      exact ⟨hmem, hflag, ws, hws, (hday ws).mp ⟨h1, h2⟩⟩
    · rintro ⟨hmem, hflag, ws, hws, h⟩
      obtain ⟨h1, h2⟩ := (hday ws).mpr h
      exact ⟨hmem, hflag, ws, hws, h1, h2⟩
  · unfold get_workshops_for_15min_reminder
    exact mem_sel (fun x => x.reminder_15min_sent) _ _
  · intro ws hws hpast
    constructor
    · unfold get_workshops_for_1day_reminder
      rw [mem_sel (fun x => x.reminder_1day_sent)]
      rintro ⟨-, -, ws2, hws2, hd⟩
      rw [hws] at hws2
      cases hws2
      unfold usecPerDay at hd
      omega
    · unfold get_workshops_for_15min_reminder
      rw [mem_sel (fun x => x.reminder_15min_sent)]
      rintro ⟨-, -, ws2, hws2, h1, -⟩
      rw [hws] at hws2
      cases hws2
      omega

/-- Witness for C1 (amended): at `now = 0`, a workshop starting at the first
microsecond of the next day is selected by the 1-day job. -/
theorem c1_witness :
    (⟨1, 1, false, false, some 86400000000⟩ : JoinedReg) ∈
      get_workshops_for_1day_reminder 0 [⟨1, 1, false, false, some 86400000000⟩] := by
  exact (c1_reminder_windows 0 [⟨1, 1, false, false, some 86400000000⟩]
    ⟨1, 1, false, false, some 86400000000⟩).1.mpr
    ⟨by simp, rfl, 86400000000, rfl, by decide⟩

/-- One item of the `workshops_data` list processed by the send loops in
`NotificationService.send_1day_reminders` / `send_15min_reminders`
(`app/services/notification.py`): the (user_id, workshop_id) pair and
whether the joined `user` / `workshop` objects are present (items missing
either are counted as failed and skipped). -/
structure SendItem where
  user_id : Nat
  workshop_id : Nat
  has_user : Bool
  has_workshop : Bool
deriving DecidableEq, Repr

/-- The summary a send loop accumulates: `emails_sent`, `failed_emails`, and
the per-item `results` entries (`true` = a "sent" entry, `false` = a
"failed" error entry; items with missing data get no entry). -/
structure ReminderSummary where
  emails_sent : Nat
  failed_emails : Nat
  results : List Bool
deriving DecidableEq, Repr

/-- `NotificationService.update_reminder_status` with `reminder_1day_sent =
True`: set that flag on every `user_workshop` row matching the pair. -/
def update_reminder_status_1day (db : List RegRow) (uid wid : Nat) : List RegRow :=
  db.map (fun r => if r.user_id == uid && r.workshop_id == wid then
    { r with reminder_1day_sent := true } else r)

/-- `NotificationService.update_reminder_status` with `reminder_15min_sent =
True`: set that flag on every `user_workshop` row matching the pair. -/
def update_reminder_status_15min (db : List RegRow) (uid wid : Nat) : List RegRow :=
  db.map (fun r => if r.user_id == uid && r.workshop_id == wid then
    { r with reminder_15min_sent := true } else r)

/-- The per-item loop of `NotificationService.send_1day_reminders`
(`app/services/notification.py`): for each item, when the joined user or
workshop is missing count a failure and continue; otherwise send the email
(`send` is the outcome of `send_1day_workshop_reminder` for that item);
on success update the 1-day flag for that exact pair and count a sent
entry; on failure count a failed entry and leave the store untouched; in
every case continue with the remaining items. -/
def send_1day_loop (send : SendItem → Bool) (items : List SendItem)
    (db : List RegRow) : ReminderSummary × List RegRow :=
  match items with
  | [] => (⟨0, 0, []⟩, db)
  | item :: rest =>
    if item.has_user && item.has_workshop then
      if send item then
        let db1 := update_reminder_status_1day db item.user_id item.workshop_id
        let res := send_1day_loop send rest db1
        (⟨res.1.emails_sent + 1, res.1.failed_emails, true :: res.1.results⟩, res.2)
      else
        let res := send_1day_loop send rest db
        (⟨res.1.emails_sent, res.1.failed_emails + 1, false :: res.1.results⟩, res.2)
    else
      let res := send_1day_loop send rest db
      (⟨res.1.emails_sent, res.1.failed_emails + 1, res.1.results⟩, res.2)

/-- The per-item loop of `NotificationService.send_15min_reminders`:
identical shape, updating the 15-minute flag. -/
def send_15min_loop (send : SendItem → Bool) (items : List SendItem)
    (db : List RegRow) : ReminderSummary × List RegRow :=
  match items with
  | [] => (⟨0, 0, []⟩, db)
  | item :: rest =>
    if item.has_user && item.has_workshop then
      if send item then
        let db1 := update_reminder_status_15min db item.user_id item.workshop_id
        let res := send_15min_loop send rest db1
        (⟨res.1.emails_sent + 1, res.1.failed_emails, true :: res.1.results⟩, res.2)
      else
        let res := send_15min_loop send rest db
        (⟨res.1.emails_sent, res.1.failed_emails + 1, false :: res.1.results⟩, res.2)
    else
      let res := send_15min_loop send rest db
      (⟨res.1.emails_sent, res.1.failed_emails + 1, res.1.results⟩, res.2)

/-- An item is a confirmed send: its data is present and the email send
reported success. -/
def send_success (send : SendItem → Bool) (i : SendItem) : Bool :=
  i.has_user && i.has_workshop && send i

/-- Some item of the batch targeting the pair (u, w) was a confirmed send. -/
def successFor (send : SendItem → Bool) (items : List SendItem) (u w : Nat) : Bool :=
  items.any (fun i => send_success send i && u == i.user_id && w == i.workshop_id)

theorem successFor_cons (send : SendItem → Bool) (item : SendItem)
    (rest : List SendItem) (u w : Nat) :
    successFor send (item :: rest) u w =
      ((send_success send item && u == item.user_id && w == item.workshop_id) ||
        successFor send rest u w) := by
  unfold successFor
  rw [List.any_cons]

theorem send_1day_loop_db (send : SendItem → Bool) (items : List SendItem)
    (db : List RegRow) :
    (send_1day_loop send items db).2 = db.map (fun r =>
      if successFor send items r.user_id r.workshop_id then
        { r with reminder_1day_sent := true } else r) := by
  induction items generalizing db with
  | nil =>
    simp [send_1day_loop, successFor]
  | cons item rest ih =>
    by_cases h1 : (item.has_user && item.has_workshop) = true
    · obtain ⟨hu, hw⟩ : item.has_user = true ∧ item.has_workshop = true := by
        simpa using h1
      by_cases h2 : send item = true
      · unfold send_1day_loop
        rw [if_pos h1, if_pos h2]
        dsimp only
        rw [ih]
        unfold update_reminder_status_1day
        rw [List.map_map]
        apply List.map_congr_left
        intro r _
        simp only [Function.comp]
        by_cases hb : (r.user_id == item.user_id && r.workshop_id == item.workshop_id) = true
        · obtain ⟨hbu, hbw⟩ : r.user_id = item.user_id ∧ r.workshop_id = item.workshop_id := by
            simpa using hb
          rw [if_pos hb, successFor_cons]
          have hfirst : (send_success send item && r.user_id == item.user_id &&
              r.workshop_id == item.workshop_id) = true := by
            simp [send_success, hu, hw, h2, hbu, hbw]
          rw [hfirst, Bool.true_or]
          cases hc : successFor send rest r.user_id r.workshop_id <;> simp [hc]
        · rw [if_neg hb, successFor_cons]
          have hfirst : (send_success send item && r.user_id == item.user_id &&
              r.workshop_id == item.workshop_id) = false := by
            cases ha : (r.user_id == item.user_id) with
            | false => simp [ha]
            | true =>
              cases hw2 : (r.workshop_id == item.workshop_id) with
              | false => simp [hw2]
              | true => exact absurd (by simp [ha, hw2]) hb
          rw [hfirst, Bool.false_or]
      · unfold send_1day_loop
        rw [if_pos h1, if_neg h2]
        dsimp only
        rw [ih]
        apply List.map_congr_left
        intro r _
        rw [successFor_cons]
        have h2f : send item = false := by
          cases hs : send item
          · rfl
          · exact absurd hs h2
        have hfirst : (send_success send item && r.user_id == item.user_id &&
            r.workshop_id == item.workshop_id) = false := by
          simp [send_success, h2f]
        rw [hfirst, Bool.false_or]
    · unfold send_1day_loop
      rw [if_neg h1]
      dsimp only
      rw [ih]
      apply List.map_congr_left
      intro r _
      rw [successFor_cons]
      have hfirst : (send_success send item && r.user_id == item.user_id &&
          r.workshop_id == item.workshop_id) = false := by
        cases hha : item.has_user with
        | false => simp [send_success, hha]
        | true =>
          cases hhb : item.has_workshop with
          | false => simp [send_success, hhb]
          | true => exact absurd (by simp [hha, hhb]) h1
      rw [hfirst, Bool.false_or]

theorem send_15min_loop_db (send : SendItem → Bool) (items : List SendItem)
    (db : List RegRow) :
    (send_15min_loop send items db).2 = db.map (fun r =>
      if successFor send items r.user_id r.workshop_id then
        { r with reminder_15min_sent := true } else r) := by
  induction items generalizing db with
  | nil =>
    simp [send_15min_loop, successFor]
  | cons item rest ih =>
    by_cases h1 : (item.has_user && item.has_workshop) = true
    · obtain ⟨hu, hw⟩ : item.has_user = true ∧ item.has_workshop = true := by
        simpa using h1
      by_cases h2 : send item = true
      · unfold send_15min_loop
        rw [if_pos h1, if_pos h2]
        dsimp only
        rw [ih]
        unfold update_reminder_status_15min
        rw [List.map_map]
        apply List.map_congr_left
        intro r _
        simp only [Function.comp]
        by_cases hb : (r.user_id == item.user_id && r.workshop_id == item.workshop_id) = true
        · obtain ⟨hbu, hbw⟩ : r.user_id = item.user_id ∧ r.workshop_id = item.workshop_id := by
            simpa using hb
          rw [if_pos hb, successFor_cons]
          have hfirst : (send_success send item && r.user_id == item.user_id &&
              r.workshop_id == item.workshop_id) = true := by
            simp [send_success, hu, hw, h2, hbu, hbw]
          rw [hfirst, Bool.true_or]
          cases hc : successFor send rest r.user_id r.workshop_id <;> simp [hc]
        · rw [if_neg hb, successFor_cons]
          have hfirst : (send_success send item && r.user_id == item.user_id &&
              r.workshop_id == item.workshop_id) = false := by
            cases ha : (r.user_id == item.user_id) with
            | false => simp [ha]
            | true =>
              cases hw2 : (r.workshop_id == item.workshop_id) with
              | false => simp [hw2]
              | true => exact absurd (by simp [ha, hw2]) hb
          rw [hfirst, Bool.false_or]
      · unfold send_15min_loop
        rw [if_pos h1, if_neg h2]
        dsimp only
        rw [ih]
        apply List.map_congr_left
        intro r _
        rw [successFor_cons]
        have h2f : send item = false := by
          cases hs : send item
          · rfl
          · exact absurd hs h2
        have hfirst : (send_success send item && r.user_id == item.user_id &&
            r.workshop_id == item.workshop_id) = false := by
          simp [send_success, h2f]
        rw [hfirst, Bool.false_or]
    · unfold send_15min_loop
      rw [if_neg h1]
      dsimp only
      rw [ih]
      apply List.map_congr_left
      intro r _
      rw [successFor_cons]
      have hfirst : (send_success send item && r.user_id == item.user_id &&
          r.workshop_id == item.workshop_id) = false := by
        cases hha : item.has_user with
        | false => simp [send_success, hha]
        | true =>
          cases hhb : item.has_workshop with
          | false => simp [send_success, hhb]
          | true => exact absurd (by simp [hha, hhb]) h1
      rw [hfirst, Bool.false_or]

theorem send_1day_loop_counts (send : SendItem → Bool) (items : List SendItem)
    (db : List RegRow) :
    (send_1day_loop send items db).1.emails_sent =
      (items.filter (send_success send)).length ∧
    (send_1day_loop send items db).1.failed_emails =
      (items.filter (fun i => !send_success send i)).length ∧
    (send_1day_loop send items db).1.results =
      (items.filter (fun i => i.has_user && i.has_workshop)).map send := by
  induction items generalizing db with
  | nil => exact ⟨rfl, rfl, rfl⟩
  | cons item rest ih =>
    by_cases h1 : (item.has_user && item.has_workshop) = true
    · by_cases h2 : send item = true
      · have hss : send_success send item = true := by
          simp only [send_success, Bool.and_eq_true] at h1 ⊢
          exact ⟨h1, h2⟩
        unfold send_1day_loop
        rw [if_pos h1, if_pos h2]
        dsimp only
        obtain ⟨ih1, ih2, ih3⟩ := ih (update_reminder_status_1day db item.user_id item.workshop_id)
        refine ⟨?_, ?_, ?_⟩
        · rw [ih1]
          simp [List.filter_cons, hss]
        · rw [ih2]
          simp [List.filter_cons, hss]
        · rw [ih3]
          simp [List.filter_cons, h1, h2]
      · have h2f : send item = false := by
          cases hs : send item
          · rfl
          · exact absurd hs h2
        have hss : send_success send item = false := by
          simp [send_success, h2f]
        unfold send_1day_loop
        rw [if_pos h1, if_neg h2]
        dsimp only
        obtain ⟨ih1, ih2, ih3⟩ := ih db
        refine ⟨?_, ?_, ?_⟩
        · rw [ih1]
          simp [List.filter_cons, hss]
        · rw [ih2]
          simp [List.filter_cons, hss]
        · rw [ih3]
          simp [List.filter_cons, h1, h2f]
    · have hss : send_success send item = false := by
        cases hha : item.has_user with
        | false => simp [send_success, hha]
        | true =>
          cases hhb : item.has_workshop with
          | false => simp [send_success, hhb]
          | true => exact absurd (by simp [hha, hhb]) h1
      have h1f : (item.has_user && item.has_workshop) = false := by
        cases hd : (item.has_user && item.has_workshop)
        · rfl
        · exact absurd hd h1
      unfold send_1day_loop
      rw [if_neg h1]
      dsimp only
      obtain ⟨ih1, ih2, ih3⟩ := ih db
      refine ⟨?_, ?_, ?_⟩
      · rw [ih1]
        simp [List.filter_cons, hss]
      · rw [ih2]
        simp [List.filter_cons, hss]
      · rw [ih3]
        simp [List.filter_cons, h1f]

theorem send_15min_loop_counts (send : SendItem → Bool) (items : List SendItem)
    (db : List RegRow) :
    (send_15min_loop send items db).1.emails_sent =
      (items.filter (send_success send)).length ∧
    (send_15min_loop send items db).1.failed_emails =
      (items.filter (fun i => !send_success send i)).length ∧
    (send_15min_loop send items db).1.results =
      (items.filter (fun i => i.has_user && i.has_workshop)).map send := by
  induction items generalizing db with
  | nil => exact ⟨rfl, rfl, rfl⟩
  | cons item rest ih =>
    by_cases h1 : (item.has_user && item.has_workshop) = true
    · by_cases h2 : send item = true
      · have hss : send_success send item = true := by
          simp only [send_success, Bool.and_eq_true] at h1 ⊢
          exact ⟨h1, h2⟩
        unfold send_15min_loop
        rw [if_pos h1, if_pos h2]
        dsimp only
        obtain ⟨ih1, ih2, ih3⟩ := ih (update_reminder_status_15min db item.user_id item.workshop_id)
        refine ⟨?_, ?_, ?_⟩
        · rw [ih1]
          simp [List.filter_cons, hss]
        · rw [ih2]
          simp [List.filter_cons, hss]
        · rw [ih3]
          simp [List.filter_cons, h1, h2]
      · have h2f : send item = false := by
          cases hs : send item
          · rfl
          · exact absurd hs h2
        have hss : send_success send item = false := by
          simp [send_success, h2f]
        unfold send_15min_loop
        rw [if_pos h1, if_neg h2]
        dsimp only
        obtain ⟨ih1, ih2, ih3⟩ := ih db
        refine ⟨?_, ?_, ?_⟩
        · rw [ih1]
          simp [List.filter_cons, hss]
        · rw [ih2]
          simp [List.filter_cons, hss]
        · rw [ih3]
          simp [List.filter_cons, h1, h2f]
    · have hss : send_success send item = false := by
        cases hha : item.has_user with
        | false => simp [send_success, hha]
        | true =>
          cases hhb : item.has_workshop with
          | false => simp [send_success, hhb]
          | true => exact absurd (by simp [hha, hhb]) h1
      have h1f : (item.has_user && item.has_workshop) = false := by
        cases hd : (item.has_user && item.has_workshop)
        · rfl
        · exact absurd hd h1
      unfold send_15min_loop
      rw [if_neg h1]
      dsimp only
      obtain ⟨ih1, ih2, ih3⟩ := ih db
      refine ⟨?_, ?_, ?_⟩
      · rw [ih1]
        simp [List.filter_cons, hss]
      · rw [ih2]
        simp [List.filter_cons, hss]
      · rw [ih3]
        simp [List.filter_cons, h1f]

theorem length_filter_add_length_filter_not {α : Type} (p : α → Bool) (l : List α) :
    (l.filter p).length + (l.filter (fun i => !p i)).length = l.length := by
  induction l with
  | nil => rfl
  | cons a t ih =>
    cases h : p a <;> simp [List.filter_cons, h] <;> omega

/-- C4: in each reminder job's send loop, a registration row's flag ends up
true iff it was already true or some processed item for that exact pair had
its data present and its email send report success (so a failed or skipped
send never sets the flag, and the other job's flag is never touched); the
loop never aborts: the final summary counts every item, `emails_sent` being
the confirmed sends, `failed_emails` the missing-data items plus the failed
sends (which each record an error entry in `results`), with
`emails_sent + failed_emails` equal to the number of items processed. -/
theorem c4_flag_only_after_send_success (send : SendItem → Bool)
    (items : List SendItem) (db : List RegRow) :
    ((send_1day_loop send items db).2 = db.map (fun r =>
        if successFor send items r.user_id r.workshop_id then
          { r with reminder_1day_sent := true } else r) ∧
      (send_1day_loop send items db).1.emails_sent =
        (items.filter (send_success send)).length ∧
      (send_1day_loop send items db).1.failed_emails =
        (items.filter (fun i => !send_success send i)).length ∧
      (send_1day_loop send items db).1.results =
        (items.filter (fun i => i.has_user && i.has_workshop)).map send ∧
      (send_1day_loop send items db).1.emails_sent +
        (send_1day_loop send items db).1.failed_emails = items.length) ∧
    ((send_15min_loop send items db).2 = db.map (fun r =>
        if successFor send items r.user_id r.workshop_id then
          { r with reminder_15min_sent := true } else r) ∧
      (send_15min_loop send items db).1.emails_sent =
        (items.filter (send_success send)).length ∧
      (send_15min_loop send items db).1.failed_emails =
        (items.filter (fun i => !send_success send i)).length ∧
      (send_15min_loop send items db).1.results =
        (items.filter (fun i => i.has_user && i.has_workshop)).map send ∧
      (send_15min_loop send items db).1.emails_sent +
        (send_15min_loop send items db).1.failed_emails = items.length) := by
  obtain ⟨h1, h2, h3⟩ := send_1day_loop_counts send items db
  obtain ⟨g1, g2, g3⟩ := send_15min_loop_counts send items db
  refine ⟨⟨send_1day_loop_db send items db, h1, h2, h3, ?_⟩,
    ⟨send_15min_loop_db send items db, g1, g2, g3, ?_⟩⟩
  · rw [h1, h2]
    exact length_filter_add_length_filter_not _ items
  · rw [g1, g2]
    exact length_filter_add_length_filter_not _ items

/-- A Python `datetime` as the workshop schema handles it: the wall-clock
reading in microseconds plus an optional UTC offset (`tzinfo`); `none` is a
naive datetime.  An aware datetime denotes the instant `wall - offset`, and
Python compares aware datetimes by instant. -/
structure PyDateTime where
  wall : Int
  tzOffset : Option Int
deriving DecidableEq, Repr

/-- The IST offset (`Asia/Kolkata`, UTC+5:30) in microseconds. -/
def istOffset : Int := 19800000000

/-- The instant denoted by an aware datetime (callers only use this after
an offset is assigned; a naive value is read with offset 0). -/
def toInstant (d : PyDateTime) : Int := d.wall - d.tzOffset.getD 0

/-- `v.astimezone(IST)`: same instant, wall clock re-expressed in IST. -/
def astimezoneIST (d : PyDateTime) : PyDateTime :=
  ⟨toInstant d + istOffset, some istOffset⟩

/-- `get_current_ist()` (`app/schemas/workshop.py`): the current instant as
an IST-aware datetime; `nowUtc` is the current instant. -/
def get_current_ist (nowUtc : Int) : PyDateTime :=
  ⟨nowUtc + istOffset, some istOffset⟩

/-- `WorkshopBase.validate_future_schedule` (`app/schemas/workshop.py`): a
naive input is reinterpreted as IST (`v.replace(tzinfo=IST)`); the value is
converted to IST and rejected with a `ValueError` when it is not strictly
after the current IST time, otherwise the IST-converted value is returned. -/
def validate_future_schedule (nowUtc : Int) (v : PyDateTime) :
    Except String PyDateTime :=
  let current_ist := get_current_ist nowUtc
  let v1 : PyDateTime :=
    match v.tzOffset with
    | none => ⟨v.wall, some istOffset⟩
    | some off => ⟨v.wall, some off⟩
  let v_ist := astimezoneIST v1
  if toInstant v_ist ≤ toInstant current_ist then
    .error "Workshop must be scheduled for the future (IST)"
  else
    .ok v_ist

/-- `WorkshopUpdate.validate_future_schedule` (`app/schemas/workshop.py`):
same check, with `None` passed through unchanged. -/
def validate_future_schedule_update (nowUtc : Int) (v : Option PyDateTime) :
    Except String (Option PyDateTime) :=
  match v with
  | none => .ok none
  | some d =>
    let current_ist := get_current_ist nowUtc
    let v1 : PyDateTime :=
      match d.tzOffset with
      | none => ⟨d.wall, some istOffset⟩
      | some off => ⟨d.wall, some off⟩
    let v_ist := astimezoneIST v1
    if toInstant v_ist ≤ toInstant current_ist then
      .error "Workshop must be scheduled for the future (IST)"
    else
      .ok (some v_ist)

/-- The instant a submitted `scheduled_at` denotes once the validator has
assigned IST to naive values. -/
def scheduledInstant (v : PyDateTime) : Int :=
  match v.tzOffset with
  | none => v.wall - istOffset
  | some off => v.wall - off

/-- C9: both the create-schema and the update-schema validators reject a
`scheduled_at` whose instant (naive values read as IST wall-clock time) is
less than or equal to the current instant, raising the validation error
before anything is persisted, and accept exactly the strictly-future
timestamps, returning them converted to IST (the same instant). -/
theorem c9_schedule_must_be_future (nowUtc : Int) (v : PyDateTime) :
    (scheduledInstant v ≤ nowUtc →
      validate_future_schedule nowUtc v =
        .error "Workshop must be scheduled for the future (IST)" ∧
      validate_future_schedule_update nowUtc (some v) =
        .error "Workshop must be scheduled for the future (IST)") ∧
    (nowUtc < scheduledInstant v →
      validate_future_schedule nowUtc v =
        .ok ⟨scheduledInstant v + istOffset, some istOffset⟩ ∧
      validate_future_schedule_update nowUtc (some v) =
        .ok (some ⟨scheduledInstant v + istOffset, some istOffset⟩)) := by
  have hinstant : ∀ v1 : PyDateTime,
      v1 = (match v.tzOffset with
            | none => (⟨v.wall, some istOffset⟩ : PyDateTime)
            | some off => ⟨v.wall, some off⟩) →
      toInstant v1 = scheduledInstant v := by
    intro v1 hv1
    cases hoff : v.tzOffset with
    | none =>
      rw [hoff] at hv1
      rw [hv1]
      unfold toInstant scheduledInstant
      rw [hoff]
      rfl
    | some off =>
      rw [hoff] at hv1
      rw [hv1]
      unfold toInstant scheduledInstant
      rw [hoff]
      rfl
  constructor
  · intro hle
    have hcond : ∀ v1 : PyDateTime, toInstant v1 = scheduledInstant v →
        toInstant (astimezoneIST v1) ≤ toInstant (get_current_ist nowUtc) := by
      intro v1 hv1
      simp only [astimezoneIST, get_current_ist, toInstant, Option.getD_some] at hv1 ⊢
      omega
    constructor
    · unfold validate_future_schedule
      rw [if_pos (hcond _ (hinstant _ rfl))]
    · unfold validate_future_schedule_update
      dsimp only
      rw [if_pos (hcond _ (hinstant _ rfl))]
  · intro hlt
    have hcond : ∀ v1 : PyDateTime, toInstant v1 = scheduledInstant v →
        ¬ toInstant (astimezoneIST v1) ≤ toInstant (get_current_ist nowUtc) := by
      intro v1 hv1
      simp only [astimezoneIST, get_current_ist, toInstant, Option.getD_some] at hv1 ⊢
      omega
    have hval : ∀ v1 : PyDateTime, toInstant v1 = scheduledInstant v →
        astimezoneIST v1 = ⟨scheduledInstant v + istOffset, some istOffset⟩ := by
      intro v1 hv1
      unfold astimezoneIST
      rw [hv1]
    constructor
    · unfold validate_future_schedule
      rw [if_neg (hcond _ (hinstant _ rfl)), hval _ (hinstant _ rfl)]
    · unfold validate_future_schedule_update
      dsimp only
      rw [if_neg (hcond _ (hinstant _ rfl)), hval _ (hinstant _ rfl)]

/-- Witness for C9: at instant 0, a timestamp one microsecond in the past
(IST wall clock 19799999999, naive) is rejected, and one a day ahead is
accepted. -/
theorem c9_witness :
    (validate_future_schedule 0 ⟨19799999999, none⟩ =
      .error "Workshop must be scheduled for the future (IST)") ∧
    (validate_future_schedule 0 ⟨86400000000, some 0⟩ =
      .ok ⟨86400000000 + 19800000000, some 19800000000⟩) := by
  constructor
  · exact ((c9_schedule_must_be_future 0 ⟨19799999999, none⟩).1 (by decide)).1
  · have h := ((c9_schedule_must_be_future 0 ⟨86400000000, some 0⟩).2 (by decide)).1
    simpa [scheduledInstant, istOffset] using h

/-- `AssignmentStatus` enum (`app/schemas/assignment.py`). -/
inductive AssignmentStatus where
  | pending
  | submitted
  | under_review
  | reviewed
  | rejected
deriving DecidableEq, Repr

/-- A row of the `assignments` table as the enroll-time auto-create touches
it. -/
structure AssignRow where
  user_id : Nat
  workshop_id : Nat
  status : AssignmentStatus
deriving DecidableEq, Repr

/-- Outcome of the store insert inside
`AssignmentService.create_assignment_on_enroll`: the insert returns data,
returns no data, or raises. -/
inductive InsertOutcome where
  | ok
  | emptyData
  | raised
deriving DecidableEq, Repr

/-- `AssignmentService.create_assignment_on_enroll`
(`app/services/assignment.py`): if an assignment already exists for the
pair, return `True`; otherwise insert a `pending` assignment and return
`True` when the insert returns data and `False` when it does not; any
exception is caught and turned into `False` — the function returns a
boolean and never raises (its result type has no error side). -/
def create_assignment_on_enroll (adb : List AssignRow) (uid wid : Nat)
    (outcome : InsertOutcome) : Bool × List AssignRow :=
  let existing := adb.filter (fun a => a.user_id == uid && a.workshop_id == wid)
  if existing.isEmpty then
    match outcome with
    | .ok => (true, adb ++ [⟨uid, wid, .pending⟩])
    | .emptyData => (false, adb)
    | .raised => (false, adb)
  else
    (true, adb)

/-- What an HTTP caller of a registration route observes: status code and
detail/message. -/
structure RouteResponse where
  statusCode : Nat
  detail : String
deriving DecidableEq, Repr

/-- The workshop ids of a user's registrations, as the router pre-check
iterates them (via `UserWorkshopService.get_user_workshops`). -/
def get_user_workshop_ids (db : List RegRow) (uid : Nat) : List Nat :=
  (db.filter (fun r => r.user_id == uid)).map (fun r => r.workshop_id)

/-- The body shared by both registration routes
(`app/routers/user_workshop.py`, `register_registered_user_to_workshop` and
`register_guest_to_workshop`), after the dependency has resolved the user:
1. the router-level duplicate pre-check — fetch the user's workshops and
   raise 409 (`precheckDetail`) when the target workshop is among them —
   wrapped in the route's own `except HTTPException` handler, which
   re-raises only when the status code is 500 and otherwise falls through;
2. `UserWorkshopService.register_user_to_workshop` (its `HTTPException`
   propagates to the caller via the outer `except HTTPException: raise`);
3. the best-effort `AssignmentService.create_assignment_on_enroll`, whose
   boolean result is only logged;
4. the success response (`successMsg`). -/
def registration_route_core (precheckDetail successMsg : String)
    (rdb : List RegRow) (adb : List AssignRow) (uid wid : Nat)
    (outcome : InsertOutcome) : RouteResponse × List RegRow × List AssignRow :=
  let precheck : Except HTTPExc Unit :=
    if (get_user_workshop_ids rdb uid).any (fun w => w == wid) then
      .error ⟨409, precheckDetail⟩
    else
      .ok ()
  let handled : Except HTTPExc Unit :=
    match precheck with
    | .error e => if e.statusCode == 500 then .error e else .ok ()
    | .ok _ => .ok ()
  match handled with
  | .error e => (⟨e.statusCode, e.detail⟩, rdb, adb)
  | .ok _ =>
    match register_user_to_workshop rdb uid wid with
    | .error e => (⟨e.statusCode, e.detail⟩, rdb, adb)
    | .ok (rdb2, _) =>
      let acRes := create_assignment_on_enroll adb uid wid outcome
      (⟨200, successMsg⟩, rdb2, acRes.2)

/-- The same route body with the router-level duplicate pre-check removed. -/
def registration_route_no_precheck (successMsg : String)
    (rdb : List RegRow) (adb : List AssignRow) (uid wid : Nat)
    (outcome : InsertOutcome) : RouteResponse × List RegRow × List AssignRow :=
  match register_user_to_workshop rdb uid wid with
  | .error e => (⟨e.statusCode, e.detail⟩, rdb, adb)
  | .ok (rdb2, _) =>
    let acRes := create_assignment_on_enroll adb uid wid outcome
    (⟨200, successMsg⟩, rdb2, acRes.2)

/-- C10: the router-level duplicate pre-check is behaviorally inert: its 409
is swallowed by the route's own `except HTTPException` handler (which
re-raises only 500s), so the route — for any pre-check detail string, i.e.
for both the registered-user and the guest route — produces exactly the
response, registration store, and assignment store of the same route with
the pre-check removed; any duplicate rejection the caller sees is the
service-level 409 from `register_user_to_workshop`. -/
theorem c10_precheck_inert (precheckDetail successMsg : String)
    (rdb : List RegRow) (adb : List AssignRow) (uid wid : Nat)
    (outcome : InsertOutcome) :
    registration_route_core precheckDetail successMsg rdb adb uid wid outcome =
      registration_route_no_precheck successMsg rdb adb uid wid outcome := by
  unfold registration_route_core registration_route_no_precheck
  by_cases hc : ((get_user_workshop_ids rdb uid).any (fun w => w == wid)) = true
  · rw [if_pos hc]
    rfl
  · rw [if_neg hc]

/-- C6: the assignment auto-create is best-effort.  For a fresh pair, the
registration insert succeeds and then, whatever the assignment call's
outcome (insert succeeded, insert returned no data, or an exception was
caught and turned into `False` — it returns a boolean and never raises),
the route's response is the success response and the registration row is
kept: the assignment failure neither rolls back the registration nor
changes the response. -/
theorem c6_assignment_best_effort (precheckDetail successMsg : String)
    (rdb : List RegRow) (adb : List AssignRow) (uid wid : Nat)
    (outcome : InsertOutcome) (h : countPair rdb uid wid = 0) :
    (registration_route_core precheckDetail successMsg rdb adb uid wid outcome).1 =
      ⟨200, successMsg⟩ ∧
    (registration_route_core precheckDetail successMsg rdb adb uid wid outcome).2.1 =
      rdb ++ [⟨uid, wid, false, false⟩] := by
  have hnil : rdb.filter (fun r => r.user_id == uid && r.workshop_id == wid) = [] := by
    unfold countPair at h
    exact List.length_eq_zero.mp h
  have hreg : register_user_to_workshop rdb uid wid =
      .ok (rdb ++ [⟨uid, wid, false, false⟩], ⟨uid, wid, false, false⟩) := by
    unfold register_user_to_workshop
    simp [hnil]
  have hnc : ((get_user_workshop_ids rdb uid).any (fun w => w == wid)) = false := by
    rw [Bool.eq_false_iff]
    intro hcon
    rcases List.any_eq_true.mp hcon with ⟨w, hwmem, hww⟩
    unfold get_user_workshop_ids at hwmem
    rcases List.mem_map.mp hwmem with ⟨r, hrmem, hrw⟩
    rcases List.mem_filter.mp hrmem with ⟨hrin, hru⟩
    have hwid : w = wid := by simpa using hww
    have hmem2 : r ∈ rdb.filter (fun r => r.user_id == uid && r.workshop_id == wid) := by
      rw [List.mem_filter]
      refine ⟨hrin, ?_⟩
      simp only [Bool.and_eq_true]
      refine ⟨hru, ?_⟩
      rw [hrw, hwid]
      simp
    rw [hnil] at hmem2
    simp at hmem2
  unfold registration_route_core
  rw [hnc]
  dsimp only
  rw [hreg]
  exact ⟨rfl, rfl⟩

/-- Witness for C6 at the empty stores with a raising assignment insert. -/
theorem c6_witness :
    (registration_route_core "pre" "Registration successful with assignment created"
      [] [] 1 2 .raised).1 =
      ⟨200, "Registration successful with assignment created"⟩ ∧
    (registration_route_core "pre" "Registration successful with assignment created"
      [] [] 1 2 .raised).2.1 = [⟨1, 2, false, false⟩] := by
  have h := c6_assignment_best_effort "pre"
    "Registration successful with assignment created" [] [] 1 2 .raised (by decide)
  simpa using h

/-- `WorkshopRegistrationDependencies.check_existing_user_by_email`
(`app/dependencies/user_workshop.py`): look the user up by email via
`AuthService.get_user_by_email`, turning its 404 into `None`. -/
def check_existing_user_by_email (db : List UserRow) (email : String) :
    Option UserRow :=
  get_user_by_email db email

/-- The validation dict built by
`WorkshopRegistrationDependencies.validate_guest_registration`. -/
structure GuestValidation where
  can_register : Bool
  existing_user : Option UserRow
  action_needed : Option String
  error_message : Option String
deriving DecidableEq, Repr

/-- `WorkshopRegistrationDependencies.validate_guest_registration`
(`app/dependencies/user_workshop.py`): an existing user whose role is not
`guest` blocks guest registration with the fixed policy message; an
existing guest or an absent user may register. -/
def validate_guest_registration (db : List UserRow) (email : String) :
    GuestValidation :=
  match check_existing_user_by_email db email with
  | some u =>
    if u.role ≠ Role.guest then
      ⟨false, some u, none,
        some ("This email is already associated with a registered account. " ++
          "Please log in and register for the workshop.")⟩
    else
      ⟨true, some u, some "check_duplicate_registration", none⟩
  | none => ⟨true, none, some "create_guest_account", none⟩

/-- `WorkshopRegistrationDependencies.get_or_create_guest_account`
(`app/dependencies/user_workshop.py`): run the validation; a blocked
request raises 400 with the validation's error message; an existing guest
is reused; otherwise a fresh `guest` account is created (role `guest`,
supplied name, no external subject id, points 0). -/
def get_or_create_guest_account (db : List UserRow) (newId : Nat)
    (name email : String) : Except HTTPExc (List UserRow × UserRow) :=
  let vr := validate_guest_registration db email
  if vr.can_register = false then
    .error ⟨400, vr.error_message.getD ""⟩
  else
    match vr.existing_user with
    | some u => .ok (db, u)
    | none => .ok (create_user_in_db db newId email name none none .guest 0)

/-- The guest registration route (`app/routers/user_workshop.py`,
`register_guest_to_workshop`): the `get_or_create_guest_account` dependency
resolves (or rejects) the guest account before the route body runs; an
`HTTPException` from the dependency is returned to the caller directly and
the route body — including any registration attempt — never runs. -/
def register_guest_route (udb : List UserRow) (rdb : List RegRow)
    (adb : List AssignRow) (newId : Nat) (name email : String) (wid : Nat)
    (outcome : InsertOutcome) :
    RouteResponse × List UserRow × List RegRow × List AssignRow :=
  match get_or_create_guest_account udb newId name email with
  | .error e => (⟨e.statusCode, e.detail⟩, udb, rdb, adb)
  | .ok (udb2, guest) =>
    let res := registration_route_core
      "This email is already registered for this workshop"
      "Guest registration successful with assignment created"
      rdb adb guest.id wid outcome
    (res.1, udb2, res.2.1, res.2.2)

/-- C8: on the guest path, an existing user row for the email whose role is
not `guest` makes the whole request fail with the 400 policy error before
any registration is attempted: the users, registrations and assignments
stores are all returned unchanged — no account is created, modified or
merged. -/
theorem c8_guest_path_rejects_registered_email (udb : List UserRow)
    (rdb : List RegRow) (adb : List AssignRow) (newId : Nat)
    (name email : String) (wid : Nat) (outcome : InsertOutcome) (u : UserRow)
    (hu : udb.find? (fun v => v.email == email) = some u)
    (hrole : u.role ≠ Role.guest) :
    register_guest_route udb rdb adb newId name email wid outcome =
      (⟨400, "This email is already associated with a registered account. " ++
        "Please log in and register for the workshop."⟩, udb, rdb, adb) := by
  unfold register_guest_route get_or_create_guest_account
    validate_guest_registration check_existing_user_by_email get_user_by_email
  rw [hu]
  dsimp only
  rw [if_pos hrole]
  dsimp only
  rw [if_pos rfl]
  rfl

/-- Witness for C8: a stored `user`-role account blocks the guest path. -/
theorem c8_witness :
    register_guest_route [⟨1, "a@x.com", some "Alice", some 9, none, .user, 0, false⟩]
      [] [] 7 "Mallory" "a@x.com" 3 .ok =
      (⟨400, "This email is already associated with a registered account. " ++
        "Please log in and register for the workshop."⟩,
       [⟨1, "a@x.com", some "Alice", some 9, none, .user, 0, false⟩], [], []) := by
  exact c8_guest_path_rejects_registered_email
    [⟨1, "a@x.com", some "Alice", some 9, none, .user, 0, false⟩] [] [] 7
    "Mallory" "a@x.com" 3 .ok ⟨1, "a@x.com", some "Alice", some 9, none, .user, 0, false⟩
    rfl (by decide)
